import Mathlib

/-!
Verification of the ALT (Accelerated Life Testing) calculation engine.

The source computes four acceleration factors (Arrhenius, Peck, Eyring,
Eyring with derating), point test times `L / AF`, and per-model tables of
zero-failure test times over sample sizes 1..30, for an exponential and a
Weibull statistical model.

Python floating point arithmetic is modelled over the real numbers.  The
pure definitions below transcribe the arithmetic of the source formulas;
a second family of `Except`-valued definitions (`computeAccelerationFactorsE`,
`test_time_exponentialE`, `test_time_weibullE`) additionally models the
points where the Python evaluation raises an exception (`ZeroDivisionError`
on division by zero and on `0.0 ** negative`, `ValueError: math domain error`
on `math.log` of a non-positive argument), in the evaluation order of the
source expressions.
-/

open scoped Classical

/-- The immutable input record of the calculator (spec §3); one field per
input widget of the source. -/
structure ParameterSet where
  T_use_C : ℝ
  T_stress_C : ℝ
  RH_use : ℝ
  RH_stress : ℝ
  Ea : ℝ
  n : ℝ
  m : ℝ
  D_uv : ℝ
  D_tc : ℝ
  D_mech : ℝ
  confidence : ℝ
  reliability : ℝ
  beta : ℝ
  L : ℝ

/-- Boltzmann constant in eV/K, `k = 8.617e-5` in the source. -/
def k : ℝ := 8.617e-5

/-- Kelvin conversion `T_use_K = T_use_C + 273.15`. -/
def T_use_K (p : ParameterSet) : ℝ := p.T_use_C + 273.15

/-- Kelvin conversion `T_stress_K = T_stress_C + 273.15`. -/
def T_stress_K (p : ParameterSet) : ℝ := p.T_stress_C + 273.15

/-- Source: `AF_arrhenius = math.exp((Ea/k) * ((1/T_use_K) - (1/T_stress_K)))`. -/
noncomputable def AF_arrhenius (p : ParameterSet) : ℝ :=
  Real.exp ((p.Ea / k) * ((1 / T_use_K p) - (1 / T_stress_K p)))

/-- Source: `AF_peck = ((RH_use / RH_stress)**(-n)) * math.exp((Ea/k) * ((1/T_use_K) - (1/T_stress_K)))`.
Real exponentiation `**` is modelled by `Real.rpow`. -/
noncomputable def AF_peck (p : ParameterSet) : ℝ :=
  (p.RH_use / p.RH_stress) ^ (-p.n) *
    Real.exp ((p.Ea / k) * ((1 / T_use_K p) - (1 / T_stress_K p)))

/-- Source: `AF_eyring = ((RH_stress / RH_use)**(m)) * math.exp((Ea/k) * ((1/T_use_K) - (1/T_stress_K)))`. -/
noncomputable def AF_eyring (p : ParameterSet) : ℝ :=
  (p.RH_stress / p.RH_use) ^ p.m *
    Real.exp ((p.Ea / k) * ((1 / T_use_K p) - (1 / T_stress_K p)))

/-- Source: `AF_eyring_total = AF_eyring * D_uv * D_tc * D_mech`. -/
noncomputable def AF_eyring_total (p : ParameterSet) : ℝ :=
  AF_eyring p * p.D_uv * p.D_tc * p.D_mech

/-- Point test time `T_arrhenius = L / AF_arrhenius`. -/
noncomputable def T_arrhenius (p : ParameterSet) : ℝ := p.L / AF_arrhenius p

/-- Point test time `T_peck = L / AF_peck`. -/
noncomputable def T_peck (p : ParameterSet) : ℝ := p.L / AF_peck p

/-- Point test time `T_eyring = L / AF_eyring`. -/
noncomputable def T_eyring (p : ParameterSet) : ℝ := p.L / AF_eyring p

/-- Point test time `T_eyring_total = L / AF_eyring_total`. -/
noncomputable def T_eyring_total (p : ParameterSet) : ℝ := p.L / AF_eyring_total p

/-- Source: `test_time_exponential(N, AF) = (L / (N * AF)) * (math.log(1 - confidence) / math.log(reliability))`. -/
noncomputable def test_time_exponential (p : ParameterSet) (N : ℕ) (AF : ℝ) : ℝ :=
  (p.L / ((N : ℝ) * AF)) * (Real.log (1 - p.confidence) / Real.log p.reliability)

/-- Source: `test_time_weibull(N, AF)`: `term = (-math.log(1 - confidence))**(1/beta)`;
returns `(L / AF) * term / (N**(1/beta))`. -/
noncomputable def test_time_weibull (p : ParameterSet) (N : ℕ) (AF : ℝ) : ℝ :=
  (p.L / AF) * ((-Real.log (1 - p.confidence)) ^ (1 / p.beta)) / ((N : ℝ) ^ (1 / p.beta))

/-- One row of a sample-size table (spec §3 SampleSizeRow): sample size,
test time in hours, in days, and the ceiling of the days. -/
structure SampleSizeRow where
  sample_size : ℕ
  hours : ℝ
  days : ℝ
  rounded_days : ℤ

/-- Sample sizes `N_range = list(range(1, 31))`. -/
def N_range : List ℕ := (List.range 30).map (fun i => i + 1)

/-- The exponential-model sample-size table for a given AF: one row per
`N` in `N_range`, with hours, days = hours / 24, and `math.ceil` of days. -/
noncomputable def expTable (p : ParameterSet) (AF : ℝ) : List SampleSizeRow :=
  N_range.map (fun N =>
    { sample_size := N
      hours := test_time_exponential p N AF
      days := test_time_exponential p N AF / 24
      rounded_days := ⌈test_time_exponential p N AF / 24⌉ })

/-- The Weibull-model sample-size table for a given AF. -/
noncomputable def weibullTable (p : ParameterSet) (AF : ℝ) : List SampleSizeRow :=
  N_range.map (fun N =>
    { sample_size := N
      hours := test_time_weibull p N AF
      days := test_time_weibull p N AF / 24
      rounded_days := ⌈test_time_weibull p N AF / 24⌉ })

/-- The single error kind of the spec's error taxonomy (§7).  The
constructors record which Python exception the modelled operation raises:
`zeroDivision` for `ZeroDivisionError`, `mathDomain` for
`ValueError: math domain error`, `complexResult` for a float power with a
negative base and non-integral exponent (which does not yield a float). -/
inductive DomainError where
  | zeroDivision : DomainError
  | mathDomain : DomainError
  | complexResult : DomainError

/-- Python float division: raises `ZeroDivisionError` on a zero denominator. -/
noncomputable def pydiv (x y : ℝ) : Except DomainError ℝ :=
  if y = 0 then Except.error DomainError.zeroDivision else Except.ok (x / y)

/-- Python `math.log`: raises `ValueError: math domain error` on a
non-positive argument. -/
noncomputable def pylog (x : ℝ) : Except DomainError ℝ :=
  if x ≤ 0 then Except.error DomainError.mathDomain else Except.ok (Real.log x)

/-- Python float `**`: `0.0` to a negative power raises `ZeroDivisionError`;
a negative base with a non-integral exponent does not produce a float
(`complexResult`); otherwise the value agrees with `Real.rpow`. -/
noncomputable def pypow (x y : ℝ) : Except DomainError ℝ :=
  if x = 0 ∧ y < 0 then Except.error DomainError.zeroDivision
  else if x < 0 ∧ ∀ z : ℤ, (z : ℝ) ≠ y then Except.error DomainError.complexResult
  else Except.ok (x ^ y)

/-- The AF block of the source with its Python exception points, in
evaluation order: `AF_arrhenius` divides by `T_use_K` and `T_stress_K`,
`AF_peck` divides `RH_use` by `RH_stress` and raises that ratio to `-n`,
`AF_eyring` divides `RH_stress` by `RH_use` and raises that ratio to `m`;
`AF_eyring_total` multiplies by the derating factors.  Returns the four AFs. -/
noncomputable def computeAccelerationFactorsE (p : ParameterSet) :
    Except DomainError (ℝ × ℝ × ℝ × ℝ) :=
  (pydiv 1 (T_use_K p)).bind fun invU =>
  (pydiv 1 (T_stress_K p)).bind fun invS =>
  (pydiv p.RH_use p.RH_stress).bind fun rP =>
  (pypow rP (-p.n)).bind fun powP =>
  (pydiv p.RH_stress p.RH_use).bind fun rE =>
  (pypow rE p.m).bind fun powE =>
  Except.ok
    (Real.exp ((p.Ea / k) * (invU - invS)),
     powP * Real.exp ((p.Ea / k) * (invU - invS)),
     powE * Real.exp ((p.Ea / k) * (invU - invS)),
     powE * Real.exp ((p.Ea / k) * (invU - invS)) * p.D_uv * p.D_tc * p.D_mech)

/-- Version of `test_time_exponential` with its Python exception points, in the
evaluation order of `(L / (N * AF)) * (math.log(1 - confidence) / math.log(reliability))`. -/
noncomputable def test_time_exponentialE (p : ParameterSet) (N : ℕ) (AF : ℝ) :
    Except DomainError ℝ :=
  (pydiv p.L ((N : ℝ) * AF)).bind fun base =>
  (pylog (1 - p.confidence)).bind fun lg1 =>
  (pylog p.reliability).bind fun lg2 =>
  (pydiv lg1 lg2).bind fun q =>
  Except.ok (base * q)

/-- Version of `test_time_weibull` with its Python exception points, in evaluation
order: `term = (-math.log(1 - confidence))**(1/beta)` then
`(L / AF) * term / (N**(1/beta))`. -/
noncomputable def test_time_weibullE (p : ParameterSet) (N : ℕ) (AF : ℝ) :
    Except DomainError ℝ :=
  (pylog (1 - p.confidence)).bind fun lg =>
  (pydiv 1 p.beta).bind fun ib =>
  (pypow (-lg) ib).bind fun term =>
  (pydiv p.L AF).bind fun la =>
  (pypow (N : ℝ) ib).bind fun np =>
  pydiv (la * term) np

/-- The default ParameterSet of the source's input widgets (spec §6). -/
noncomputable def pDefault : ParameterSet :=
  { T_use_C := 25, T_stress_C := 85, RH_use := 50, RH_stress := 85,
    Ea := 0.9, n := 3, m := 2, D_uv := 0.8, D_tc := 0.9, D_mech := 0.95,
    confidence := 0.9, reliability := 0.9, beta := 1, L := 87600 }

lemma mem_N_range {N : ℕ} (h : N ∈ N_range) : 1 ≤ N ∧ N ≤ 30 := by
  simp only [N_range, List.mem_map, List.mem_range] at h
  obtain ⟨i, hi, rfl⟩ := h
  omega

lemma AF_arrhenius_pos (p : ParameterSet) : 0 < AF_arrhenius p := Real.exp_pos _

lemma AF_peck_pos (p : ParameterSet) (hRu : 0 < p.RH_use) (hRs : 0 < p.RH_stress) :
    0 < AF_peck p :=
  mul_pos (Real.rpow_pos_of_pos (div_pos hRu hRs) _) (Real.exp_pos _)

lemma AF_eyring_pos (p : ParameterSet) (hRu : 0 < p.RH_use) (hRs : 0 < p.RH_stress) :
    0 < AF_eyring p :=
  mul_pos (Real.rpow_pos_of_pos (div_pos hRs hRu) _) (Real.exp_pos _)

lemma AF_eyring_total_pos (p : ParameterSet) (hRu : 0 < p.RH_use) (hRs : 0 < p.RH_stress)
    (hDu : 0 < p.D_uv) (hDt : 0 < p.D_tc) (hDm : 0 < p.D_mech) :
    0 < AF_eyring_total p :=
  mul_pos (mul_pos (mul_pos (AF_eyring_pos p hRu hRs) hDu) hDt) hDm

lemma tte_pos (p : ParameterSet) (N : ℕ) (hN : 1 ≤ N) (AF : ℝ) (hAF : 0 < AF)
    (hL : 0 < p.L) (hc0 : 0 < p.confidence) (hc1 : p.confidence < 1)
    (hr0 : 0 < p.reliability) (hr1 : p.reliability < 1) :
    0 < test_time_exponential p N AF := by
  have h1 : Real.log (1 - p.confidence) < 0 := Real.log_neg (by linarith) (by linarith)
  have h2 : Real.log p.reliability < 0 := Real.log_neg hr0 hr1
  have hN' : (0 : ℝ) < (N : ℝ) := by exact_mod_cast Nat.lt_of_lt_of_le Nat.zero_lt_one hN
  exact mul_pos (div_pos hL (mul_pos hN' hAF)) (div_pos_of_neg_of_neg h1 h2)

lemma ttw_pos (p : ParameterSet) (N : ℕ) (hN : 1 ≤ N) (AF : ℝ) (hAF : 0 < AF)
    (hL : 0 < p.L) (hc0 : 0 < p.confidence) (hc1 : p.confidence < 1) :
    0 < test_time_weibull p N AF := by
  have h1 : 0 < -Real.log (1 - p.confidence) := by
    have := Real.log_neg (by linarith : (0:ℝ) < 1 - p.confidence)
      (by linarith : 1 - p.confidence < 1)
    linarith
  have hN' : (0 : ℝ) < (N : ℝ) := by exact_mod_cast Nat.lt_of_lt_of_le Nat.zero_lt_one hN
  exact div_pos (mul_pos (div_pos hL hAF) (Real.rpow_pos_of_pos h1 _))
    (Real.rpow_pos_of_pos hN' _)

/-- C1: for every ParameterSet with positive Kelvin temperatures and positive
relative humidities, `computeAccelerationFactors` returns Arrhenius AF = E,
Peck AF = (RH_use/RH_stress)^(-n)·E, Eyring AF = (RH_stress/RH_use)^m·E and
Eyring+Derating AF = Eyring AF·D_uv·D_tc·D_mech, where
E = exp((Ea/k)·(1/T_use_K − 1/T_stress_K)), k = 8.617e-5, and
temperatures are converted to Kelvin by K = C + 273.15. -/
theorem computeAccelerationFactors_formulas (p : ParameterSet)
    (hTu : 0 < T_use_K p) (hTs : 0 < T_stress_K p)
    (hRu : 0 < p.RH_use) (hRs : 0 < p.RH_stress) :
    k = 8.617e-5 ∧
    T_use_K p = p.T_use_C + 273.15 ∧
    T_stress_K p = p.T_stress_C + 273.15 ∧
    AF_arrhenius p = Real.exp ((p.Ea / k) * (1 / T_use_K p - 1 / T_stress_K p)) ∧
    AF_peck p = (p.RH_use / p.RH_stress) ^ (-p.n) *
      Real.exp ((p.Ea / k) * (1 / T_use_K p - 1 / T_stress_K p)) ∧
    AF_eyring p = (p.RH_stress / p.RH_use) ^ p.m *
      Real.exp ((p.Ea / k) * (1 / T_use_K p - 1 / T_stress_K p)) ∧
    AF_eyring_total p = AF_eyring p * p.D_uv * p.D_tc * p.D_mech :=
  ⟨rfl, rfl, rfl, rfl, rfl, rfl, rfl⟩

/-- Witness for C1 at the source's default parameters. -/
theorem computeAccelerationFactors_formulas_witness :
    AF_arrhenius pDefault =
      Real.exp ((pDefault.Ea / k) * (1 / T_use_K pDefault - 1 / T_stress_K pDefault)) ∧
    AF_eyring_total pDefault = AF_eyring pDefault * pDefault.D_uv * pDefault.D_tc * pDefault.D_mech :=
  ⟨(computeAccelerationFactors_formulas pDefault
      (by norm_num [T_use_K, pDefault]) (by norm_num [T_stress_K, pDefault])
      (by norm_num [pDefault]) (by norm_num [pDefault])).2.2.2.1,
   (computeAccelerationFactors_formulas pDefault
      (by norm_num [T_use_K, pDefault]) (by norm_num [T_stress_K, pDefault])
      (by norm_num [pDefault]) (by norm_num [pDefault])).2.2.2.2.2.2⟩

/-- C2: for N ≥ 1, AF > 0, L > 0 and confidence, reliability in (0,1),
`exponentialTestTime` returns (L/(N·AF))·(ln(1−confidence)/ln(reliability)),
and the result is strictly positive. -/
theorem test_time_exponential_spec (p : ParameterSet) (N : ℕ) (hN : 1 ≤ N)
    (AF : ℝ) (hAF : 0 < AF) (hL : 0 < p.L)
    (hc0 : 0 < p.confidence) (hc1 : p.confidence < 1)
    (hr0 : 0 < p.reliability) (hr1 : p.reliability < 1) :
    test_time_exponential p N AF =
      (p.L / ((N : ℝ) * AF)) * (Real.log (1 - p.confidence) / Real.log p.reliability) ∧
    0 < test_time_exponential p N AF :=
  ⟨rfl, tte_pos p N hN AF hAF hL hc0 hc1 hr0 hr1⟩

/-- Witness for C2 at the default parameters, N = 1, AF = 1. -/
theorem test_time_exponential_spec_witness :
    0 < test_time_exponential pDefault 1 1 :=
  (test_time_exponential_spec pDefault 1 (by norm_num) 1 (by norm_num)
    (by norm_num [pDefault]) (by norm_num [pDefault]) (by norm_num [pDefault])
    (by norm_num [pDefault]) (by norm_num [pDefault])).2

/-- C3: for N ≥ 1, AF > 0, L > 0, confidence in (0,1) and β ≠ 0,
`weibullTestTime` returns (L/AF)·term/N^(1/β) with
term = (−ln(1−confidence))^(1/β). -/
theorem test_time_weibull_spec (p : ParameterSet) (N : ℕ) (hN : 1 ≤ N)
    (AF : ℝ) (hAF : 0 < AF) (hL : 0 < p.L)
    (hc0 : 0 < p.confidence) (hc1 : p.confidence < 1) (hb : p.beta ≠ 0) :
    test_time_weibull p N AF =
      (p.L / AF) * ((-Real.log (1 - p.confidence)) ^ (1 / p.beta)) /
        ((N : ℝ) ^ (1 / p.beta)) :=
  rfl

/-- Witness for C3 at the default parameters, N = 1, AF = 1. -/
theorem test_time_weibull_spec_witness :
    test_time_weibull pDefault 1 1 =
      (pDefault.L / 1) * ((-Real.log (1 - pDefault.confidence)) ^ (1 / pDefault.beta)) /
        ((1 : ℝ) ^ (1 / pDefault.beta)) := by
  have h := test_time_weibull_spec pDefault 1 (by norm_num) 1 (by norm_num)
    (by norm_num [pDefault]) (by norm_num [pDefault]) (by norm_num [pDefault])
    (by norm_num [pDefault])
  simpa using h

/-- C4: for every valid ParameterSet (Kelvin temperatures positive, humidities
in (0,100], Ea > 0, derating factors in (0,1], confidence and reliability in
(0,1), β ≠ 0, L > 0), all four AF values are strictly positive, and all
derived test times — the four point test times L/AF and every entry of every
sample-size table (hours, days and rounded days) — are strictly positive.
Over the real-number model every value is a real number, hence finite. -/
theorem valid_params_positive (p : ParameterSet)
    (hTu : 0 < T_use_K p) (hTs : 0 < T_stress_K p)
    (hRu : 0 < p.RH_use) (hRu2 : p.RH_use ≤ 100)
    (hRs : 0 < p.RH_stress) (hRs2 : p.RH_stress ≤ 100)
    (hEa : 0 < p.Ea)
    (hDu : 0 < p.D_uv) (hDu2 : p.D_uv ≤ 1)
    (hDt : 0 < p.D_tc) (hDt2 : p.D_tc ≤ 1)
    (hDm : 0 < p.D_mech) (hDm2 : p.D_mech ≤ 1)
    (hc0 : 0 < p.confidence) (hc1 : p.confidence < 1)
    (hr0 : 0 < p.reliability) (hr1 : p.reliability < 1)
    (hb : p.beta ≠ 0) (hL : 0 < p.L) :
    (0 < AF_arrhenius p ∧ 0 < AF_peck p ∧ 0 < AF_eyring p ∧ 0 < AF_eyring_total p) ∧
    (0 < T_arrhenius p ∧ 0 < T_peck p ∧ 0 < T_eyring p ∧ 0 < T_eyring_total p) ∧
    (∀ AF : ℝ,
      (AF = AF_arrhenius p ∨ AF = AF_peck p ∨ AF = AF_eyring p ∨ AF = AF_eyring_total p) →
      (∀ row ∈ expTable p AF, 0 < row.hours ∧ 0 < row.days ∧ 0 < row.rounded_days) ∧
      (∀ row ∈ weibullTable p AF, 0 < row.hours ∧ 0 < row.days ∧ 0 < row.rounded_days)) := by
  have hA := AF_arrhenius_pos p
  have hP := AF_peck_pos p hRu hRs
  have hEy := AF_eyring_pos p hRu hRs
  have hTt := AF_eyring_total_pos p hRu hRs hDu hDt hDm
  refine ⟨⟨hA, hP, hEy, hTt⟩,
    ⟨div_pos hL hA, div_pos hL hP, div_pos hL hEy, div_pos hL hTt⟩, ?_⟩
  intro AF hAF
  have hAFpos : 0 < AF := by rcases hAF with rfl | rfl | rfl | rfl <;> assumption
  constructor
  · intro row hrow
    simp only [expTable, List.mem_map] at hrow
    obtain ⟨N, hNmem, rfl⟩ := hrow
    have hN1 := (mem_N_range hNmem).1
    have hhrs := tte_pos p N hN1 AF hAFpos hL hc0 hc1 hr0 hr1
    exact ⟨hhrs, by positivity, Int.ceil_pos.mpr (by positivity)⟩
  · intro row hrow
    simp only [weibullTable, List.mem_map] at hrow
    obtain ⟨N, hNmem, rfl⟩ := hrow
    have hN1 := (mem_N_range hNmem).1
    have hhrs := ttw_pos p N hN1 AF hAFpos hL hc0 hc1
    exact ⟨hhrs, by positivity, Int.ceil_pos.mpr (by positivity)⟩

/-- Witness for C4 at the source's default parameters. -/
theorem valid_params_positive_witness :
    0 < AF_arrhenius pDefault ∧ 0 < AF_peck pDefault ∧
    0 < AF_eyring pDefault ∧ 0 < AF_eyring_total pDefault :=
  (valid_params_positive pDefault
    (by norm_num [T_use_K, pDefault]) (by norm_num [T_stress_K, pDefault])
    (by norm_num [pDefault]) (by norm_num [pDefault])
    (by norm_num [pDefault]) (by norm_num [pDefault])
    (by norm_num [pDefault])
    (by norm_num [pDefault]) (by norm_num [pDefault])
    (by norm_num [pDefault]) (by norm_num [pDefault])
    (by norm_num [pDefault]) (by norm_num [pDefault])
    (by norm_num [pDefault]) (by norm_num [pDefault])
    (by norm_num [pDefault]) (by norm_num [pDefault])
    (by norm_num [pDefault]) (by norm_num [pDefault])).1

/-- C5 (amended): for fixed AF > 0, L > 0, confidence and reliability in
(0,1), `exponentialTestTime` is strictly decreasing in N over positive
integers; `weibullTestTime` is strictly decreasing in N provided β > 0. -/
theorem test_time_strict_anti (p : ParameterSet) (N1 N2 : ℕ) (hN1 : 1 ≤ N1)
    (hN12 : N1 < N2) (AF : ℝ) (hAF : 0 < AF) (hL : 0 < p.L)
    (hc0 : 0 < p.confidence) (hc1 : p.confidence < 1)
    (hr0 : 0 < p.reliability) (hr1 : p.reliability < 1) :
    test_time_exponential p N2 AF < test_time_exponential p N1 AF ∧
    (0 < p.beta → test_time_weibull p N2 AF < test_time_weibull p N1 AF) := by
  have hN1R : (0 : ℝ) < (N1 : ℝ) := by
    exact_mod_cast Nat.lt_of_lt_of_le Nat.zero_lt_one hN1
  have hN12R : (N1 : ℝ) < (N2 : ℝ) := by exact_mod_cast hN12
  constructor
  · have hq : 0 < Real.log (1 - p.confidence) / Real.log p.reliability :=
      div_pos_of_neg_of_neg (Real.log_neg (by linarith) (by linarith))
        (Real.log_neg hr0 hr1)
    have h1 : p.L / ((N2 : ℝ) * AF) < p.L / ((N1 : ℝ) * AF) :=
      div_lt_div_of_pos_left hL (mul_pos hN1R hAF) (mul_lt_mul_of_pos_right hN12R hAF)
    exact mul_lt_mul_of_pos_right h1 hq
  · intro hbpos
    have h1 : 0 < -Real.log (1 - p.confidence) := by
      have := Real.log_neg (by linarith : (0 : ℝ) < 1 - p.confidence)
        (by linarith : 1 - p.confidence < 1)
      linarith
    have hC : 0 < (p.L / AF) * ((-Real.log (1 - p.confidence)) ^ (1 / p.beta)) :=
      mul_pos (div_pos hL hAF) (Real.rpow_pos_of_pos h1 _)
    have hpow : (N1 : ℝ) ^ (1 / p.beta) < (N2 : ℝ) ^ (1 / p.beta) :=
      Real.rpow_lt_rpow (le_of_lt hN1R) hN12R (by positivity)
    exact div_lt_div_of_pos_left hC (Real.rpow_pos_of_pos hN1R _) hpow

/-- Witness for C5's amended theorem at the default parameters,
N1 = 1 < N2 = 2, AF = 1. -/
theorem test_time_strict_anti_witness :
    test_time_exponential pDefault 2 1 < test_time_exponential pDefault 1 1 :=
  (test_time_strict_anti pDefault 1 2 (by norm_num) (by norm_num) 1 (by norm_num)
    (by norm_num [pDefault]) (by norm_num [pDefault]) (by norm_num [pDefault])
    (by norm_num [pDefault]) (by norm_num [pDefault])).1

/-- A ParameterSet with β = -1 and confidence 1 − e⁻¹, used to refute the
claim that `weibullTestTime` is strictly decreasing in N for every β ≠ 0. -/
noncomputable def pC5 : ParameterSet :=
  { pDefault with confidence := 1 - Real.exp (-1), reliability := 0.5, beta := -1, L := 1 }

/-- C5 counterexample: at β = -1 (a legal β ≠ 0), confidence = 1 − e⁻¹,
reliability = 0.5, L = 1, AF = 1, the Weibull test time at N = 2 is NOT
smaller than at N = 1 (it equals 2 versus 1), so the claim as stated fails. -/
theorem test_time_weibull_not_anti_for_negative_beta :
    pC5.beta ≠ 0 ∧ 0 < pC5.confidence ∧ pC5.confidence < 1 ∧
    0 < pC5.reliability ∧ pC5.reliability < 1 ∧ 0 < pC5.L ∧ (0 : ℝ) < 1 ∧
    ¬ (test_time_weibull pC5 2 1 < test_time_weibull pC5 1 1) := by
  have hc : pC5.confidence = 1 - Real.exp (-1) := rfl
  have hb : pC5.beta = -1 := rfl
  have hLd : pC5.L = 1 := rfl
  have hexp1 : Real.exp (-1 : ℝ) < 1 := Real.exp_lt_one_iff.mpr (by norm_num)
  have hexp0 : 0 < Real.exp (-1 : ℝ) := Real.exp_pos _
  have hlog : -Real.log (1 - pC5.confidence) = 1 := by
    rw [hc, show (1 : ℝ) - (1 - Real.exp (-1)) = Real.exp (-1) by ring, Real.log_exp]
    norm_num
  have hib : 1 / pC5.beta = -1 := by rw [hb]; norm_num
  have rp2 : ((2 : ℕ) : ℝ) ^ (-1 : ℝ) = 1 / 2 := by
    rw [show (-1 : ℝ) = ((-1 : ℤ) : ℝ) by norm_num, Real.rpow_intCast]
    norm_num
  have rp1 : ((1 : ℕ) : ℝ) ^ (-1 : ℝ) = 1 := by
    rw [show ((1 : ℕ) : ℝ) = (1 : ℝ) by norm_num, Real.one_rpow]
  have hT2 : test_time_weibull pC5 2 1 = 2 := by
    unfold test_time_weibull
    rw [hib, hlog, hLd, Real.one_rpow, rp2]
    norm_num
  have hT1 : test_time_weibull pC5 1 1 = 1 := by
    unfold test_time_weibull
    rw [hib, hlog, hLd, Real.one_rpow, rp1]
    norm_num
  refine ⟨by rw [hb]; norm_num, by rw [hc]; linarith, by rw [hc]; linarith,
    by norm_num [pC5], by norm_num [pC5], by rw [hLd]; norm_num, by norm_num, ?_⟩
  rw [hT1, hT2]
  norm_num

/-- A ParameterSet with β = 1, confidence = 1 − e⁻², reliability = e⁻²,
so that the claimed equality condition ln R = ln(1 − CI) holds. -/
noncomputable def pC6 : ParameterSet :=
  { pDefault with
    confidence := 1 - Real.exp (-2)
    reliability := Real.exp (-2)
    beta := 1
    L := 1 }

/-- C6 counterexample: at β = 1, confidence = 1 − e⁻², reliability = e⁻²,
N = 1, AF = 1, L = 1 the claimed condition ln(reliability) = −(−ln(1−confidence))
holds, yet weibullTestTime = 2 while exponentialTestTime = 1 — so "equal
exactly when ln(reliability) = −(−ln(1−confidence))" is false. -/
theorem beta_one_formulas_differ :
    Real.log pC6.reliability = -(-Real.log (1 - pC6.confidence)) ∧
    pC6.beta = 1 ∧ 0 < pC6.confidence ∧ pC6.confidence < 1 ∧
    0 < pC6.reliability ∧ pC6.reliability < 1 ∧ 0 < pC6.L ∧
    test_time_weibull pC6 1 1 ≠ test_time_exponential pC6 1 1 := by
  have hc : pC6.confidence = 1 - Real.exp (-2) := rfl
  have hr : pC6.reliability = Real.exp (-2) := rfl
  have hb : pC6.beta = 1 := rfl
  have hLd : pC6.L = 1 := rfl
  have h1c : (1 : ℝ) - pC6.confidence = Real.exp (-2) := by rw [hc]; ring
  have hlogr : Real.log pC6.reliability = -2 := by rw [hr, Real.log_exp]
  have hlog1c : Real.log (1 - pC6.confidence) = -2 := by rw [h1c, Real.log_exp]
  have hexp2 : Real.exp (-2 : ℝ) < 1 := Real.exp_lt_one_iff.mpr (by norm_num)
  have hexp0 : (0 : ℝ) < Real.exp (-2) := Real.exp_pos _
  have hib : 1 / pC6.beta = 1 := by rw [hb]; norm_num
  have hW : test_time_weibull pC6 1 1 = 2 := by
    unfold test_time_weibull
    rw [hib, hlog1c, hLd, show -(-2 : ℝ) = 2 by norm_num, Real.rpow_one,
      Real.rpow_one]
    norm_num
  have hE : test_time_exponential pC6 1 1 = 1 := by
    unfold test_time_exponential
    rw [hlog1c, hlogr, hLd]
    norm_num
  exact ⟨by rw [hlogr, hlog1c]; norm_num, hb, by rw [hc]; linarith,
    by rw [hc]; linarith, by rw [hr]; exact hexp0, by rw [hr]; exact hexp2,
    by rw [hLd]; norm_num, by rw [hW, hE]; norm_num⟩

/-- C6 (amended): for β = 1, N ≥ 1, AF > 0, L > 0, confidence and
reliability in (0,1), `weibullTestTime` equals `exponentialTestTime`
exactly when ln(reliability) = −1 (i.e. reliability = e⁻¹); in general the
two formulas are NOT equal at β = 1. -/
theorem beta_one_equality_iff (p : ParameterSet) (hb : p.beta = 1) (N : ℕ)
    (hN : 1 ≤ N) (AF : ℝ) (hAF : 0 < AF) (hL : 0 < p.L)
    (hc0 : 0 < p.confidence) (hc1 : p.confidence < 1)
    (hr0 : 0 < p.reliability) (hr1 : p.reliability < 1) :
    test_time_weibull p N AF = test_time_exponential p N AF ↔
      Real.log p.reliability = -1 := by
  have hN' : (0 : ℝ) < (N : ℝ) := by
    exact_mod_cast Nat.lt_of_lt_of_le Nat.zero_lt_one hN
  have ha : Real.log (1 - p.confidence) < 0 := Real.log_neg (by linarith) (by linarith)
  have hrneg : Real.log p.reliability < 0 := Real.log_neg hr0 hr1
  set a := Real.log (1 - p.confidence) with hadef
  set r := Real.log p.reliability with hrdef
  have har : a ≠ 0 := ne_of_lt ha
  have hrr : r ≠ 0 := ne_of_lt hrneg
  have hW : test_time_weibull p N AF = (p.L / ((N : ℝ) * AF)) * (-a) := by
    unfold test_time_weibull
    rw [hb, show (1 : ℝ) / 1 = 1 by norm_num, Real.rpow_one, Real.rpow_one, hadef]
    ring
  have hEx : test_time_exponential p N AF = (p.L / ((N : ℝ) * AF)) * (a / r) := rfl
  rw [hW, hEx]
  have hcpos : (0 : ℝ) < p.L / ((N : ℝ) * AF) := div_pos hL (mul_pos hN' hAF)
  constructor
  · intro h
    have h2 : -a = a / r := mul_left_cancel₀ (ne_of_gt hcpos) h
    have h3 : a = -a * r := (div_eq_iff hrr).mp h2.symm
    have h4 : a * (1 + r) = 0 := by nlinarith [h3]
    rcases mul_eq_zero.mp h4 with h5 | h5
    · exact absurd h5 har
    · linarith
  · intro h
    rw [h]
    ring

/-- Witness for C6's amended theorem at the default parameters (β = 1). -/
theorem beta_one_equality_iff_witness :
    test_time_weibull pDefault 1 1 = test_time_exponential pDefault 1 1 ↔
      Real.log pDefault.reliability = -1 :=
  beta_one_equality_iff pDefault rfl 1 (by norm_num) 1 (by norm_num)
    (by norm_num [pDefault]) (by norm_num [pDefault]) (by norm_num [pDefault])
    (by norm_num [pDefault]) (by norm_num [pDefault])

/-- C7: when RH_use = 0 the AF computation fails (the Peck/Eyring humidity
ratio divides by zero, or `0 ** negative` is taken), and when T_use_K = 0
(T_use = −273.15 °C) the common exponential term fails (1/T_use_K divides by
zero); in both cases `computeAccelerationFactorsE` returns a `DomainError`
instead of a value, so nothing propagates downstream. -/
theorem computeAccelerationFactorsE_domain_error (p : ParameterSet)
    (h : p.RH_use = 0 ∨ T_use_K p = 0) :
    ∃ e, computeAccelerationFactorsE p = Except.error e := by
  unfold computeAccelerationFactorsE
  rcases h with hru | htu
  · by_cases h1 : T_use_K p = 0
    · exact ⟨DomainError.zeroDivision, by simp [pydiv, h1, Except.bind]⟩
    · by_cases h2 : T_stress_K p = 0
      · exact ⟨DomainError.zeroDivision, by simp [pydiv, h1, h2, Except.bind]⟩
      · by_cases h3 : p.RH_stress = 0
        · exact ⟨DomainError.zeroDivision, by simp [pydiv, h1, h2, h3, Except.bind]⟩
        · by_cases h4 : -p.n < 0
          · exact ⟨DomainError.zeroDivision,
              by simp [pydiv, pypow, h1, h2, h3, h4, hru, Except.bind]⟩
          · exact ⟨DomainError.zeroDivision,
              by simp [pydiv, pypow, h1, h2, h3, h4, hru, Except.bind]⟩
  · exact ⟨DomainError.zeroDivision, by simp [pydiv, htu, Except.bind]⟩

/-- A ParameterSet with RH_use = 0, the C7 failing input. -/
noncomputable def pC7 : ParameterSet := { pDefault with RH_use := 0 }

/-- Witness for C7: at the default parameters with RH_use = 0 the AF
computation returns a DomainError. -/
theorem computeAccelerationFactorsE_domain_error_witness :
    ∃ e, computeAccelerationFactorsE pC7 = Except.error e :=
  computeAccelerationFactorsE_domain_error pC7 (Or.inl rfl)

/-- C8 (amended): `exponentialTestTime` fails with a DomainError whenever
confidence ≥ 1, or reliability ≤ 0, or reliability = 1; in particular
confidence = 1.0 fails (ln(0) undefined).  (For reliability > 1 the Python
code raises no exception: ln(reliability) is then positive, see the
counterexample.) -/
theorem test_time_exponentialE_domain_error (p : ParameterSet) (N : ℕ) (AF : ℝ)
    (h : 1 ≤ p.confidence ∨ p.reliability ≤ 0 ∨ p.reliability = 1) :
    ∃ e, test_time_exponentialE p N AF = Except.error e := by
  unfold test_time_exponentialE
  by_cases h0 : ((N : ℝ) * AF) = 0
  · exact ⟨DomainError.zeroDivision, by simp [pydiv, h0, Except.bind]⟩
  · rcases h with h1 | h1 | h1
    · have hle : 1 - p.confidence ≤ 0 := by linarith
      exact ⟨DomainError.mathDomain, by simp [pydiv, pylog, h0, hle, Except.bind]⟩
    · by_cases h2 : 1 - p.confidence ≤ 0
      · exact ⟨DomainError.mathDomain, by simp [pydiv, pylog, h0, h2, Except.bind]⟩
      · exact ⟨DomainError.mathDomain,
          by simp [pydiv, pylog, h0, h2, h1, Except.bind]⟩
    · by_cases h2 : 1 - p.confidence ≤ 0
      · exact ⟨DomainError.mathDomain, by simp [pydiv, pylog, h0, h2, Except.bind]⟩
      · have hn1 : ¬(p.reliability ≤ 0) := by rw [h1]; norm_num
        have hx : ¬((1 : ℝ) ≤ 0) := by norm_num
        exact ⟨DomainError.zeroDivision,
          by simp [pydiv, pylog, h0, h2, hn1, h1, hx, Real.log_one, Except.bind]⟩

/-- A ParameterSet with confidence = 0.5 and reliability = 2, the C8
counterexample input. -/
noncomputable def pC8 : ParameterSet :=
  { pDefault with
    confidence := 0.5
    reliability := 2
    L := 1 }

/-- C8 counterexample: at reliability = 2 ≥ 1 (confidence = 0.5, N = 1,
AF = 1, L = 1) `exponentialTestTime` succeeds and returns a value — no
exception is raised — refuting "fails whenever reliability ≥ 1". -/
theorem test_time_exponentialE_ok_at_reliability_two :
    (1 : ℝ) ≤ pC8.reliability ∧
    ∃ v, test_time_exponentialE pC8 1 1 = Except.ok v := by
  constructor
  · norm_num [pC8]
  · have h0 : ¬(((1 : ℕ) : ℝ) * 1 = 0) := by norm_num
    have h2 : ¬((1 : ℝ) - pC8.confidence ≤ 0) := by norm_num [pC8]
    have h3 : ¬(pC8.reliability ≤ 0) := by norm_num [pC8]
    have h4 : ¬(Real.log pC8.reliability = 0) := by
      have : pC8.reliability = 2 := rfl
      rw [this]
      exact ne_of_gt (Real.log_pos (by norm_num))
    refine ⟨pC8.L * (Real.log (1 - pC8.confidence) / Real.log pC8.reliability), ?_⟩
    simp [test_time_exponentialE, pydiv, pylog, h0, h2, h3, h4, Except.bind]

/-- C9: `weibullTestTime` fails with a DomainError when β = 0 (the
reciprocal 1/β divides by zero), for every N ≥ 1, AF > 0, L > 0 and
confidence in (0,1). -/
theorem test_time_weibullE_beta_zero_error (p : ParameterSet) (N : ℕ) (AF : ℝ)
    (hb : p.beta = 0) (hN : 1 ≤ N) (hAF : 0 < AF) (hL : 0 < p.L)
    (hc0 : 0 < p.confidence) (hc1 : p.confidence < 1) :
    ∃ e, test_time_weibullE p N AF = Except.error e := by
  have h2 : ¬((1 : ℝ) - p.confidence ≤ 0) := by linarith
  exact ⟨DomainError.zeroDivision,
    by simp [test_time_weibullE, pylog, pydiv, h2, hb, Except.bind]⟩

/-- A ParameterSet with β = 0, the C9 failing input. -/
noncomputable def pC9 : ParameterSet := { pDefault with beta := 0 }

/-- Witness for C9: at the default parameters with β = 0 the Weibull test
time computation returns a DomainError. -/
theorem test_time_weibullE_beta_zero_error_witness :
    ∃ e, test_time_weibullE pC9 1 1 = Except.error e :=
  test_time_weibullE_beta_zero_error pC9 1 1 rfl (by norm_num) (by norm_num)
    (by norm_num [pC9, pDefault]) (by norm_num [pC9, pDefault])
    (by norm_num [pC9, pDefault])

/-- C10: `exponentialTestTime` does not depend on β, and `weibullTestTime`
does not depend on reliability: two ParameterSets agreeing on every field
except β give identical exponential test times, and two agreeing on every
field except reliability give identical Weibull test times. -/
theorem test_time_noninterference (p q : ParameterSet) (N : ℕ) (AF : ℝ) :
    (p.T_use_C = q.T_use_C → p.T_stress_C = q.T_stress_C →
     p.RH_use = q.RH_use → p.RH_stress = q.RH_stress → p.Ea = q.Ea →
     p.n = q.n → p.m = q.m → p.D_uv = q.D_uv → p.D_tc = q.D_tc →
     p.D_mech = q.D_mech → p.confidence = q.confidence →
     p.reliability = q.reliability → p.L = q.L →
     test_time_exponential p N AF = test_time_exponential q N AF) ∧
    (p.T_use_C = q.T_use_C → p.T_stress_C = q.T_stress_C →
     p.RH_use = q.RH_use → p.RH_stress = q.RH_stress → p.Ea = q.Ea →
     p.n = q.n → p.m = q.m → p.D_uv = q.D_uv → p.D_tc = q.D_tc →
     p.D_mech = q.D_mech → p.confidence = q.confidence → p.beta = q.beta →
     p.L = q.L →
     test_time_weibull p N AF = test_time_weibull q N AF) := by
  constructor
  · intro _ _ _ _ _ _ _ _ _ _ hc hr hL
    unfold test_time_exponential
    rw [hc, hr, hL]
  · intro _ _ _ _ _ _ _ _ _ _ hc hb hL
    unfold test_time_weibull
    rw [hc, hb, hL]

/-- The default parameters with only β changed, for the C10 witness. -/
noncomputable def pC10b : ParameterSet := { pDefault with beta := 2 }

/-- The default parameters with only reliability changed, for the C10 witness. -/
noncomputable def pC10r : ParameterSet := { pDefault with reliability := 0.8 }

/-- Witness for C10: changing only β leaves the exponential test time
unchanged, and changing only reliability leaves the Weibull test time
unchanged, at the default parameters, N = 1, AF = 1. -/
theorem test_time_noninterference_witness :
    test_time_exponential pDefault 1 1 = test_time_exponential pC10b 1 1 ∧
    test_time_weibull pDefault 1 1 = test_time_weibull pC10r 1 1 :=
  ⟨(test_time_noninterference pDefault pC10b 1 1).1
      rfl rfl rfl rfl rfl rfl rfl rfl rfl rfl rfl rfl rfl,
   (test_time_noninterference pDefault pC10r 1 1).2
      rfl rfl rfl rfl rfl rfl rfl rfl rfl rfl rfl rfl rfl⟩

/-- A ParameterSet with confidence = 1, the C8 domain-error input. -/
noncomputable def pC8w : ParameterSet := { pDefault with confidence := 1 }

/-- Witness for C8's amended theorem: confidence = 1.0 makes
`exponentialTestTime` fail with a DomainError (ln(0) undefined). -/
theorem test_time_exponentialE_domain_error_witness :
    ∃ e, test_time_exponentialE pC8w 1 1 = Except.error e :=
  test_time_exponentialE_domain_error pC8w 1 1 (Or.inl (by norm_num [pC8w]))
